import Mathlib

/-!
Shallow embedding of `src/src/components/business/AdminLayout.tsx`
(the merchant admin shell of the Ecommerce_scalixity front-end).

The component's logic is a handful of pure functions over UI state:
the session gate (lines 89-91), the navigation table (lines 25-45),
active-item resolution (lines 134-138, 172), the route-change
auto-expand effect (lines 74-86), the manual toggles (lines 93-99),
the resize handler (lines 60-72) and sign-out (lines 101-104).
Each is embedded below; presentation-only data (icons, CSS class
strings, the user display name) is omitted.
-/

namespace AdminLayout

/-- A sub-item of a navigation section: `{ name, path, icon }` in the source
table.  The icon is presentation-only and omitted.  `path` is `Option` because
the source objects are untyped literals that could omit the key; the table
invariant asserts it is always present.  Sub-items in the source never carry a
nested `submenu` key, so none is modelled. -/
structure SubItem where
  name : String
  path : Option String
deriving DecidableEq

/-- A top-level navigation entry: `{ name, icon, path }` or
`{ name, icon, submenu }` in the source table.  Both keys are optional in the
untyped source objects; the table invariant asserts exactly one is present. -/
structure NavItem where
  name : String
  path : Option String := none
  submenu : Option (List SubItem) := none
deriving DecidableEq

/-- The `navigationItems` table, lines 25-45 of the source. -/
def navigationItems : List NavItem :=
  [ { name := "Dashboard", path := some "/business/dashboard" },
    { name := "Catalog",
      submenu := some
        [ { name := "Products", path := some "/business/catalog/products" },
          { name := "Categories", path := some "/business/catalog/categories" },
          { name := "Attributes", path := some "/business/catalog/attributes" } ] },
    { name := "Orders", path := some "/business/orders" },
    { name := "Inventory", path := some "/business/inventory" },
    { name := "Customers", path := some "/business/customers" },
    { name := "Payments", path := some "/business/payments" },
    { name := "Promotions", path := some "/business/promotions" },
    { name := "Reviews", path := some "/business/reviews" },
    { name := "Reports", path := some "/business/reports" },
    { name := "Support", path := some "/business/support" },
    { name := "Settings", path := some "/business/settings" } ]

/-- The "Catalog" section of the table (entry at index 1), named for reuse. -/
def catalogItem : NavItem :=
  { name := "Catalog",
    submenu := some
      [ { name := "Products", path := some "/business/catalog/products" },
        { name := "Categories", path := some "/business/catalog/categories" },
        { name := "Attributes", path := some "/business/catalog/attributes" } ] }

/-- JS `s.startsWith(pre)`: `pre` is a prefix of `s`, compared on characters. -/
def strStartsWith (s pre : String) : Bool :=
  pre.data.isPrefixOf s.data

/-- JS `pathname === item.path` for an optional key: comparing a string with
`undefined` with strict equality yields `false`. -/
def pathEquals (pathname : String) : Option String → Bool
  | some p => pathname == p
  | none => false

/-- Line 172: `location.pathname.startsWith(subItem.path)`.  A missing path
matches no route. -/
def isSubItemActive (pathname : String) (s : SubItem) : Bool :=
  match s.path with
  | some p => strStartsWith pathname p
  | none => false

/-- Lines 134-137: an item with a submenu is active iff some sub-item's path
prefix-matches the current pathname; a flat item is active iff the pathname
equals its path exactly. -/
def isMenuActive (pathname : String) (item : NavItem) : Bool :=
  match item.submenu with
  | some subs => subs.any (isSubItemActive pathname)
  | none => pathEquals pathname item.path

/-- The table invariant on a sub-item: it has a path. -/
def subItemHasPath (s : SubItem) : Bool :=
  s.path.isSome

/-- The table invariant on a top-level item: exactly one of `path` or
`submenu` is present, never both, never neither; and every submenu entry has
a path. -/
def navItemOk (i : NavItem) : Bool :=
  match i.path, i.submenu with
  | some _, none => true
  | none, some subs => subs.all subItemHasPath
  | _, _ => false

/-- The `expandedMenus` map, section name to boolean.  A key that was never
written reads as `false` in the source (`expandedMenus[item.name] || false`,
line 138), so the map is modelled as a total function with default `false`. -/
abbrev ExpansionState := String → Bool

/-- JS object spread update `{ ...prev, [k]: b }`. -/
def setEntry (st : ExpansionState) (k : String) (b : Bool) : ExpansionState :=
  fun n => if n == k then b else st n

/-- Lines 55-57: the initial expansion state `{ Catalog: true }`. -/
def initialExpandedMenus : ExpansionState :=
  setEntry (fun _ => false) "Catalog" true

/-- One iteration of the auto-expand effect's `forEach` body (lines 76-85):
if the item has a submenu and some sub-item's path prefix-matches the
pathname, force the item's entry to `true`; otherwise leave the state alone. -/
def autoExpandStep (pathname : String) (acc : ExpansionState) (item : NavItem) : ExpansionState :=
  match item.submenu with
  | some subs =>
      if subs.any (isSubItemActive pathname) then setEntry acc item.name true else acc
  | none => acc

/-- The route-change auto-expand effect (lines 74-86): fold the `forEach`
body over the navigation table. -/
def autoExpand (pathname : String) (items : List NavItem) (st : ExpansionState) : ExpansionState :=
  items.foldl (autoExpandStep pathname) st

/-- Lines 97-99: `setExpandedMenus(prev => ({ ...prev, [name]: !prev[name] }))`.
`!undefined` is `true` in JS, matching negation of the default `false`. -/
def toggleSubmenu (name : String) (st : ExpansionState) : ExpansionState :=
  setEntry st name (!(st name))

/-- The shell's boolean UI state (lines 51-54). -/
structure UIState where
  isSidebarOpen : Bool
  isProfileMenuOpen : Bool
  isNotificationsOpen : Bool
  isMobile : Bool
deriving DecidableEq

/-- Lines 61-66: `setIsMobile(window.innerWidth < 768)`, then
`if (window.innerWidth >= 768) setIsSidebarOpen(true)`. -/
def handleResize (innerWidth : Nat) (st : UIState) : UIState :=
  let st1 : UIState := { st with isMobile := decide (innerWidth < 768) }
  if 768 ≤ innerWidth then { st1 with isSidebarOpen := true } else st1

/-- Lines 93-95: `setIsSidebarOpen(!isSidebarOpen)`. -/
def toggleSidebar (st : UIState) : UIState :=
  { st with isSidebarOpen := !st.isSidebarOpen }

/-- Observable side effects issued by the shell. -/
inductive Eff where
  | logoutCall : Eff
  | navigateTo : String → Eff
deriving DecidableEq

/-- `true` exactly on the logout effect. -/
def isLogoutEff : Eff → Bool
  | Eff.logoutCall => true
  | _ => false

/-- `true` exactly on navigation effects. -/
def isNavigateEff : Eff → Bool
  | Eff.navigateTo _ => true
  | _ => false

/-- Lines 101-104: `logout(); navigate('/business-login')`.  The handler
reads no UI state; the parameter records that it behaves the same from any
prior UI state. -/
def handleLogout (_ui : UIState) : List Eff :=
  [Eff.logoutCall, Eff.navigateTo "/business-login"]

/-- Outcome of rendering `AdminLayout`: either a `<Navigate>` redirect with a
`replace` flag and the origin location as state, or the navigation shell with
the nested content region. -/
inductive GateResult (α : Type) where
  | redirect (target : String) (replaceFlag : Bool) (fromLoc : α) : GateResult α
  | shell : GateResult α
deriving DecidableEq

/-- The auth snapshot read from `useAuth()` (line 48); `user` and `logout`
are presentation-only / effect-only and modelled elsewhere. -/
structure AuthSnapshot where
  isAuthenticated : Bool
  isMerchant : Bool
  isMerchantVerified : Bool
deriving DecidableEq

/-- Lines 89-91: `if (!isAuthenticated || !isMerchant) return <Navigate
to="/business-login" state=... replace />;` else render the shell. -/
def gate {α : Type} (auth : AuthSnapshot) (loc : α) : GateResult α :=
  if !auth.isAuthenticated || !auth.isMerchant then
    GateResult.redirect "/business-login" true loc
  else
    GateResult.shell

/-- JS truthiness of a possibly-`undefined` boolean: `undefined` is falsy. -/
def jsTruthy : Option Bool → Bool
  | some b => b
  | none => false

/-- Lines 89-91 at the JS runtime level, when the auth context has not
populated the fields: `!undefined` is `true`, so a missing field behaves as
`false` in the guard. -/
def gateRuntime {α : Type} (isAuthenticated isMerchant : Option Bool) (loc : α) : GateResult α :=
  if !(jsTruthy isAuthenticated) || !(jsTruthy isMerchant) then
    GateResult.redirect "/business-login" true loc
  else
    GateResult.shell

end AdminLayout

namespace AdminLayout

/-- Claim C1: for every AuthSnapshot and every current location, if
`isAuthenticated` is false or `isMerchant` is false, `AdminLayout` produces a
replace-navigation redirect to `/business-login` carrying the original
location as state (and renders no shell content); if both are true, it renders
the navigation shell with the nested content region. -/
theorem gate_spec {α : Type} (auth : AuthSnapshot) (loc : α) :
    ((auth.isAuthenticated = false ∨ auth.isMerchant = false) →
      gate auth loc = GateResult.redirect "/business-login" true loc) ∧
    (auth.isAuthenticated = true → auth.isMerchant = true →
      gate auth loc = GateResult.shell) := by
  obtain ⟨a, m, v⟩ := auth
  constructor
  · rintro (h | h) <;> simp_all [gate]
  · intro ha hm
    simp_all [gate]

/-- Witness for C1: a non-merchant snapshot is redirected with the origin
location as state; a fully authorized snapshot reaches the shell. -/
theorem gate_spec_witness :
    gate ⟨true, false, true⟩ (0 : Nat) = GateResult.redirect "/business-login" true 0 ∧
    gate ⟨true, true, true⟩ (0 : Nat) = GateResult.shell :=
  ⟨(gate_spec ⟨true, false, true⟩ 0).1 (Or.inr rfl),
   (gate_spec ⟨true, true, true⟩ 0).2 rfl rfl⟩

/-- Claim C2: at the JS runtime level, a missing (`undefined`)
`isAuthenticated` or `isMerchant` field behaves as false in the guard and the
gate redirects to the login route; the authorized shell is reachable exactly
when both fields are present and true (fail closed). -/
theorem gateRuntime_fail_closed {α : Type} (a m : Option Bool) (loc : α) :
    ((a = none ∨ m = none) →
      gateRuntime a m loc = GateResult.redirect "/business-login" true loc) ∧
    (gateRuntime a m loc = GateResult.shell ↔ a = some true ∧ m = some true) := by
  constructor
  · rintro (rfl | rfl)
    · cases m with
      | none => rfl
      | some b => cases b <;> rfl
    · cases a with
      | none => rfl
      | some b => cases b <;> rfl
  · cases a with
    | none => simp [gateRuntime, jsTruthy]
    | some x =>
        cases m with
        | none => cases x <;> simp [gateRuntime, jsTruthy]
        | some y => cases x <;> cases y <;> simp [gateRuntime, jsTruthy]

/-- Witness for C2: with `isAuthenticated` missing the gate redirects, and
the shell is reached exactly on two present-and-true fields. -/
theorem gateRuntime_fail_closed_witness :
    gateRuntime none (some true) (0 : Nat) = GateResult.redirect "/business-login" true 0 ∧
    (gateRuntime (some true) (some true) (0 : Nat) = GateResult.shell ↔
      (some true : Option Bool) = some true ∧ (some true : Option Bool) = some true) :=
  ⟨(gateRuntime_fail_closed none (some true) 0).1 (Or.inl rfl),
   (gateRuntime_fail_closed (some true) (some true) 0).2⟩

/-- Claim C6: for every prior value of the sidebar-open flag (and of the
other UI booleans), a resize event that puts the viewport width at 768px or
more sets the sidebar-open flag to true; in particular, crossing from below
768px to at least 768px forces the sidebar open. -/
theorem handleResize_wide_opens (st : UIState) (w : Nat) (h : 768 ≤ w) :
    (handleResize w st).isSidebarOpen = true := by
  simp [handleResize, if_pos h]

/-- Witness for C6: at width 800 the sidebar opens from a fully closed
mobile state. -/
theorem handleResize_wide_opens_witness :
    (handleResize 800 ⟨false, false, false, true⟩).isSidebarOpen = true :=
  handleResize_wide_opens ⟨false, false, false, true⟩ 800 (by decide)

/-- Claim C10: the resize handler never sets the sidebar-open flag to false.
Below 768px it only updates `isMobile` and leaves every other field, in
particular `isSidebarOpen`, unchanged; from any prior state an open sidebar
stays open across any resize; and collapsing is done by `toggleSidebar`,
which flips the flag (so it alone can set it to false). -/
theorem handleResize_never_closes (st : UIState) (w : Nat) :
    (w < 768 → handleResize w st = { st with isMobile := true }) ∧
    (st.isSidebarOpen = true → (handleResize w st).isSidebarOpen = true) ∧
    (toggleSidebar st).isSidebarOpen = !st.isSidebarOpen := by
  refine ⟨fun h => ?_, fun h => ?_, rfl⟩
  · have hlt : ¬ 768 ≤ w := by omega
    simp [handleResize, if_neg hlt, decide_eq_true h]
  · by_cases hw : 768 ≤ w
    · simp [handleResize, if_pos hw]
    · simp [handleResize, if_neg hw, h]

/-- Witness for C10: resizing to width 500 keeps an open sidebar open and
only flips `isMobile`. -/
theorem handleResize_never_closes_witness :
    handleResize 500 ⟨true, false, false, false⟩ = ⟨true, false, false, true⟩ ∧
    (handleResize 500 ⟨true, false, false, false⟩).isSidebarOpen = true :=
  ⟨(handleResize_never_closes ⟨true, false, false, false⟩ 500).1 (by decide),
   (handleResize_never_closes ⟨true, false, false, false⟩ 500).2.1 rfl⟩

/-- Claim C7: for every section name and every ExpansionState, toggling the
section twice returns the state to its original value at every key (the
manual toggle is an involution on the rendered expanded/collapsed state). -/
theorem toggleSubmenu_involutive (name : String) (st : ExpansionState) (k : String) :
    toggleSubmenu name (toggleSubmenu name st) k = st k := by
  by_cases h : k = name <;> simp [toggleSubmenu, setEntry, h]

/-- Claim C8: for every prior UI state, sign-out issues exactly one logout
call and exactly one client-side navigation, the navigation goes to
`/business-login`, and the full effect trace is the logout call followed by
that navigation (logout strictly before the navigation). -/
theorem handleLogout_spec (ui : UIState) :
    (handleLogout ui).countP isLogoutEff = 1 ∧
    (handleLogout ui).filter isNavigateEff = [Eff.navigateTo "/business-login"] ∧
    handleLogout ui = [Eff.logoutCall, Eff.navigateTo "/business-login"] := by
  refine ⟨?_, ?_, rfl⟩ <;> rfl

/-- Claim C3: active-item resolution.  A flat item is active iff the current
path equals the item's path exactly; a section with sub-items is active iff
the current path starts with some sub-item's path; a sub-item is active iff
the current path starts with that sub-item's path; and whenever a route R
starts with a sub-item path P, that sub-item and its parent section are both
marked active. -/
theorem activeResolution_spec (pathname : String) (item : NavItem) :
    (item.submenu = none →
      (isMenuActive pathname item = true ↔ item.path = some pathname)) ∧
    (∀ subs, item.submenu = some subs →
      ((isMenuActive pathname item = true ↔
          ∃ s ∈ subs, isSubItemActive pathname s = true) ∧
       (∀ s ∈ subs, ∀ p, s.path = some p → strStartsWith pathname p = true →
          isSubItemActive pathname s = true ∧ isMenuActive pathname item = true))) := by
  obtain ⟨nm, pth, sm⟩ := item
  cases sm with
  | none =>
      constructor
      · intro _
        cases pth with
        | none => simp [isMenuActive, pathEquals]
        | some p =>
            show (pathname == p) = true ↔ some p = some pathname
            simp only [beq_iff_eq, Option.some.injEq]
            exact eq_comm
      · intro subs hs
        exact Option.noConfusion hs
  | some subs =>
      constructor
      · intro h
        exact Option.noConfusion h
      · intro subs2 hs
        have hsubs : subs2 = subs := (Option.some_inj.mp hs).symm
        subst hsubs
        constructor
        · show subs2.any (isSubItemActive pathname) = true ↔ _
          exact List.any_eq_true
        · intro s hmem p hp hstart
          obtain ⟨snm, spth⟩ := s
          have hp2 : spth = some p := hp
          subst hp2
          have hact : isSubItemActive pathname ⟨snm, some p⟩ = true := hstart
          refine ⟨hact, ?_⟩
          show subs2.any (isSubItemActive pathname) = true
          rw [List.any_eq_true]
          exact ⟨⟨snm, some p⟩, hmem, hact⟩

/-- Witness for C3: with the route `/business/catalog/categories` and the
Catalog section, the Categories sub-item and the section are both active. -/
theorem activeResolution_spec_witness :
    isSubItemActive "/business/catalog/categories"
      ⟨"Categories", some "/business/catalog/categories"⟩ = true ∧
    isMenuActive "/business/catalog/categories" catalogItem = true :=
  ((activeResolution_spec "/business/catalog/categories" catalogItem).2
    [⟨"Products", some "/business/catalog/products"⟩,
     ⟨"Categories", some "/business/catalog/categories"⟩,
     ⟨"Attributes", some "/business/catalog/attributes"⟩] rfl).2
    ⟨"Categories", some "/business/catalog/categories"⟩ (by decide)
    "/business/catalog/categories" rfl (by decide)

/-- One step of the auto-expand fold never turns an entry off. -/
lemma autoExpandStep_preserves (pathname : String) (acc : ExpansionState)
    (item : NavItem) (n : String) (h : acc n = true) :
    autoExpandStep pathname acc item n = true := by
  obtain ⟨nm, pth, sm⟩ := item
  cases sm with
  | none => exact h
  | some subs =>
      show (if subs.any (isSubItemActive pathname) = true
            then setEntry acc nm true else acc) n = true
      by_cases hc : subs.any (isSubItemActive pathname) = true
      · rw [if_pos hc]
        show (if (n == nm) = true then true else acc n) = true
        by_cases hk : (n == nm) = true
        · rw [if_pos hk]
        · rw [if_neg hk]
          exact h
      · rw [if_neg hc]
        exact h

/-- The auto-expand fold never turns an entry off. -/
lemma autoExpand_preserves (pathname : String) (items : List NavItem)
    (st : ExpansionState) (n : String) (h : st n = true) :
    autoExpand pathname items st n = true := by
  induction items generalizing st with
  | nil => exact h
  | cons hd tl ih =>
      exact ih (autoExpandStep pathname st hd)
        (autoExpandStep_preserves pathname st hd n h)

/-- One step of the auto-expand fold turns an active section's entry on. -/
lemma autoExpandStep_sets (pathname : String) (acc : ExpansionState)
    (item : NavItem) (subs : List SubItem) (hsub : item.submenu = some subs)
    (hact : subs.any (isSubItemActive pathname) = true) :
    autoExpandStep pathname acc item item.name = true := by
  obtain ⟨nm, pth, sm⟩ := item
  have hsm : sm = some subs := hsub
  subst hsm
  show (if subs.any (isSubItemActive pathname) = true
        then setEntry acc nm true else acc) nm = true
  rw [if_pos hact]
  show (if (nm == nm) = true then true else acc nm) = true
  rw [if_pos (beq_self_eq_true nm)]

/-- The auto-expand fold turns on the entry of any active section of the
table it folds over. -/
lemma autoExpand_sets (pathname : String) (item : NavItem)
    (subs : List SubItem) (hsub : item.submenu = some subs)
    (hact : subs.any (isSubItemActive pathname) = true) :
    ∀ (items : List NavItem), item ∈ items → ∀ (st : ExpansionState),
      autoExpand pathname items st item.name = true := by
  intro items
  induction items with
  | nil => intro h; cases h
  | cons hd tl ih =>
      intro hmem st
      rcases List.mem_cons.mp hmem with h1 | h2
      · subst h1
        exact autoExpand_preserves pathname tl
          (autoExpandStep pathname st item) item.name
          (autoExpandStep_sets pathname st item subs hsub hact)
      · exact ih h2 (autoExpandStep pathname st hd)

/-- One step of the auto-expand fold leaves the entry of a name that is not
an active section of this item unchanged. -/
lemma autoExpandStep_frame (pathname : String) (acc : ExpansionState)
    (item : NavItem) (n : String)
    (h : ∀ subs, item.submenu = some subs → item.name = n →
          subs.any (isSubItemActive pathname) = false) :
    autoExpandStep pathname acc item n = acc n := by
  obtain ⟨nm, pth, sm⟩ := item
  cases sm with
  | none => rfl
  | some subs =>
      show (if subs.any (isSubItemActive pathname) = true
            then setEntry acc nm true else acc) n = acc n
      by_cases hc : subs.any (isSubItemActive pathname) = true
      · rw [if_pos hc]
        show (if (n == nm) = true then true else acc n) = acc n
        by_cases hk : (n == nm) = true
        · have hnm : nm = n := (eq_of_beq hk).symm
          have hfalse := h subs rfl hnm
          rw [hfalse] at hc
          exact Bool.noConfusion hc
        · rw [if_neg hk]
      · rw [if_neg hc]

/-- The auto-expand fold leaves the entry of a name that names no active
section unchanged. -/
lemma autoExpand_frame (pathname : String) (n : String) :
    ∀ (items : List NavItem),
      (∀ item ∈ items, ∀ subs, item.submenu = some subs → item.name = n →
        subs.any (isSubItemActive pathname) = false) →
      ∀ (st : ExpansionState), autoExpand pathname items st n = st n := by
  intro items
  induction items with
  | nil => intro _ st; rfl
  | cons hd tl ih =>
      intro h st
      calc autoExpand pathname (hd :: tl) st n
          = autoExpand pathname tl (autoExpandStep pathname st hd) n := rfl
        _ = (autoExpandStep pathname st hd) n :=
            ih (fun item hm => h item (List.mem_cons_of_mem hd hm)) _
        _ = st n :=
            autoExpandStep_frame pathname st hd n
              (fun subs hs hn => h hd (List.mem_cons_self hd tl) subs hs hn)

/-- Claim C4: the route-change auto-expand step is monotone on the expansion
state: it turns on the entry of every section whose active-resolution is
true, turns no entry off (a true entry stays true), leaves every other entry
unchanged, and consequently once a route change has set a section's entry to
true, any later route change leaves it true (only a manual toggle can
collapse it). -/
theorem autoExpand_spec (pathname : String) (st : ExpansionState) (n : String) :
    (st n = true → autoExpand pathname navigationItems st n = true) ∧
    (∀ item ∈ navigationItems, item.name = n →
      ∀ subs, item.submenu = some subs →
        subs.any (isSubItemActive pathname) = true →
        autoExpand pathname navigationItems st n = true) ∧
    ((∀ item ∈ navigationItems, ∀ subs, item.submenu = some subs →
        item.name = n → subs.any (isSubItemActive pathname) = false) →
      autoExpand pathname navigationItems st n = st n) ∧
    (∀ pathname2, autoExpand pathname navigationItems st n = true →
      autoExpand pathname2 navigationItems
        (autoExpand pathname navigationItems st) n = true) :=
  ⟨fun h => autoExpand_preserves pathname navigationItems st n h,
   fun item hmem hname subs hsub hact =>
     hname ▸ autoExpand_sets pathname item subs hsub hact navigationItems hmem st,
   fun h => autoExpand_frame pathname n navigationItems h st,
   fun pathname2 h => autoExpand_preserves pathname2 navigationItems _ n h⟩

/-- Witness for C4: navigating to `/business/catalog/products` turns the
Catalog entry on from the everywhere-false state. -/
theorem autoExpand_spec_witness :
    autoExpand "/business/catalog/products" navigationItems
      (fun _ => false) "Catalog" = true :=
  (autoExpand_spec "/business/catalog/products" (fun _ => false) "Catalog").2.1
    catalogItem (by decide) rfl
    [⟨"Products", some "/business/catalog/products"⟩,
     ⟨"Categories", some "/business/catalog/categories"⟩,
     ⟨"Attributes", some "/business/catalog/attributes"⟩] rfl (by decide)

/-- Claim C5: on the route `/business/catalog/categories`, the Catalog
section of the table is marked active, the auto-expand step forces its
expansion entry to true from any prior expansion state, and among the
Catalog sub-items exactly "Categories" is marked active. -/
theorem catalogCategories_route :
    catalogItem ∈ navigationItems ∧
    isMenuActive "/business/catalog/categories" catalogItem = true ∧
    (∀ st : ExpansionState,
      autoExpand "/business/catalog/categories" navigationItems st "Catalog" = true) ∧
    ((catalogItem.submenu.getD []).filter
      (isSubItemActive "/business/catalog/categories")).map SubItem.name
        = ["Categories"] := by
  refine ⟨by decide, by decide, fun st => ?_, by decide⟩
  exact autoExpand_sets "/business/catalog/categories" catalogItem
    [⟨"Products", some "/business/catalog/products"⟩,
     ⟨"Categories", some "/business/catalog/categories"⟩,
     ⟨"Attributes", some "/business/catalog/attributes"⟩] rfl (by decide)
    navigationItems (by decide) st

/-- Claim C9: every entry of the navigation table satisfies the
NavigationItem invariant: each top-level item has exactly one of a path or a
submenu, never both and never neither, and every submenu entry has a path
(sub-items carry no nested submenu in the table). -/
theorem navigationItems_invariant : navigationItems.all navItemOk = true := by
  decide

end AdminLayout
